import Mathlib

/-!
Shallow embedding of `src/usb_cable_chk.py` (USB-A↔C cable certification
tester) and verification of the claims about it.

External effects (shell command output, filesystem reads, wall-clock time,
random bytes) are passed in as explicit parameters; the pure computations
on them are translated directly from the Python source.
-/

namespace UsbCableChk

/-- Result of `subprocess.run` / the synthetic timeout result, as used by
the command runner (mirrors the `CompletedProcess` fields the program reads). -/
structure CompletedProcess where
  args : String
  returncode : Int
  stdout : String
  stderr : String
deriving Repr, DecidableEq

/-- One probe's output: `{"value": ..., "status": ...}` dict entry. -/
structure ProbeResult where
  value : String
  status : String
deriving Repr, DecidableEq

/- The seven status glyph strings that appear in the source. -/

def passGlyph : String := "✅"
def failGlyph : String := "❌"
def warnGlyph : String := "⚠️"
def unknownGlyph : String := "❓"
def star1 : String := "⭐ (1/3)"
def star2 : String := "⭐⭐ (2/3)"
def star3 : String := "⭐⭐⭐ (3/3)"

/-- `USBCableTester.TEST_FILE_SIZE = 1024 * 1024`. -/
def TEST_FILE_SIZE : Nat := 1024 * 1024

/-- `USBCableTester.TEST_CYCLES = 5`. -/
def TEST_CYCLES : Nat := 5

/- ### String helpers mirroring the Python string operations used -/

/-- Python substring membership `needle in hay`, on char lists. -/
def containsSub (needle : List Char) : List Char → Bool
  | [] => needle.isPrefixOf []
  | c :: rest => needle.isPrefixOf (c :: rest) || containsSub needle rest

/-- Python `needle in hay` for strings. -/
def strContains (hay needle : String) : Bool :=
  containsSub needle.data hay.data

/-- Python `str.isdigit` restricted to ASCII decimal digits (the digits that
can occur in the command output the program feeds it). -/
def pyIsDigit (s : String) : Bool :=
  s.data ≠ [] && s.data.all Char.isDigit

/-- Python `s.startswith(pre)`. -/
def strStartsWith (s pre : String) : Bool :=
  pre.data.isPrefixOf s.data

/-- Python `s.strip()` (for the ASCII whitespace that occurs in command
output). -/
def pyStrip (s : String) : String :=
  String.mk ((s.data.dropWhile Char.isWhitespace).reverse.dropWhile
    Char.isWhitespace).reverse

/-- Python `s.lower()` (for the ASCII letters that occur in command
output). -/
def pyLower (s : String) : String :=
  String.mk (s.data.map Char.toLower)

/-- Python `int(s)` on a string of ASCII decimal digits. -/
def digitsToNat (l : List Char) : Nat :=
  l.foldl (fun acc c => acc * 10 + (c.toNat - 48)) 0

/- ### CommandRunner (source method `run_cmd`, lines 46-55) -/

/-- Outcome of the underlying `subprocess.run` call: it either completes
(with captured stdout/stderr and an exit code) or raises `TimeoutExpired`. -/
inductive CmdOutcome where
  | completed (stdout stderr : String) (returncode : Int)
  | timedOut
deriving Repr, DecidableEq

/-- `run_cmd(cmd, timeout, check)`: returns the captured result unchanged on
completion (the `check` branch only logs), and on `TimeoutExpired` returns
`CompletedProcess(cmd, 1, "", "Timeout")`. Total: every outcome yields a
result, none raises to the caller. -/
def runCmd (cmd : String) (_timeout : Nat) (outcome : CmdOutcome) :
    CompletedProcess :=
  match outcome with
  | .completed out err rc =>
      { args := cmd, returncode := rc, stdout := out, stderr := err }
  | .timedOut =>
      { args := cmd, returncode := 1, stdout := "", stderr := "Timeout" }

/- ### Version probe: `detect_usb_version` (lines 62-83) -/

/-- The `if/elif` classification chain applied to the matched `bcdUSB`
token `ver` (lines 69-78). -/
def classify_version (ver : String) : String × String :=
  if strStartsWith ver "2." then ("USB 2.0", star1)
  else if strContains ver "3.2" || strContains ver "3.20" then
    ("USB 3.2 Gen 2x2", star3)
  else if strContains ver "3.1" || strContains ver "3.10" then
    ("USB 3.2 Gen 2", star2)
  else if strContains ver "3.0" then ("USB 3.2 Gen 1", star2)
  else ("USB " ++ ver, warnGlyph)

/-- `detect_usb_version`, as a function of the regex match on the `lsusb`
output: `some ver` when `bcdUSB\s+(\d+\.\d+)` matched with group `ver`,
`none` when it did not. -/
def detect_usb_version (verMatch : Option String) : ProbeResult :=
  match verMatch with
  | some ver =>
      let vs := classify_version ver
      { value := vs.1, status := vs.2 }
  | none => { value := "Unknown", status := unknownGlyph }

/- ### Power probe: `detect_power_sysfs` (lines 85-103) -/

/-- One candidate device's `power/control` attribute: `none` when the power
directory is missing or the read raises (silently ignored), `some s` when
the file read returned `s`. A candidate is a positive match when `"on" in
s.strip().lower()` (line 96). -/
def powerReadOn (r : Option String) : Bool :=
  match r with
  | some s => strContains (pyLower (pyStrip s)) "on"
  | none => false

/-- `detect_power_sysfs`, as a function of the (at most 5) candidate
`power/control` reads: `("900mA", tier-2)` if any candidate reads "on",
else the default `("500mA", tier-1)`. -/
def detect_power_sysfs (reads : List (Option String)) : ProbeResult :=
  if reads.any powerReadOn then { value := "900mA", status := star2 }
  else { value := "500mA", status := star1 }

/- ### Stability probe: `usb_stability_test` (lines 105-123) -/

/-- The fixed error keyword list (line 108). -/
def errorKeywords : List String := ["disconnect", "reset", "over_current", "error"]

/-- Errors counted against one polled snapshot: keywords present in the
(lowercased) current snapshot but absent from the (lowercased) baseline
(lines 115-117). -/
def snapshotErrors (base current : String) : Nat :=
  errorKeywords.countP fun e =>
    strContains (pyLower current) e && !strContains (pyLower base) e

/-- The accumulated `error_count` over the ~4s polling loop, as a function
of the baseline `dmesg` output and the list of polled snapshots. -/
def stability_error_count (base : String) (snaps : List String) : Nat :=
  (snaps.map (snapshotErrors base)).sum

/-- `usb_stability_test`: value `"0 Errors"` / pass glyph when no error was
counted, else `"{n} Errors"` / fail glyph (lines 119-121). -/
def usb_stability_test (base : String) (snaps : List String) : ProbeResult :=
  let ec := stability_error_count base snaps
  { value := if ec = 0 then "0 Errors" else toString ec ++ " Errors",
    status := if ec = 0 then passGlyph else failGlyph }

/- ### Pinout probe: `check_pinout_data` (lines 125-133) -/

/-- `check_pinout_data`, as a function of the grepped endpoint lines:
`("OK", pass)` iff `"BULK"` occurs in them, else `("Power-only?", warn)`. -/
def check_pinout_data (endpoints : String) : ProbeResult :=
  { value := if strContains endpoints "BULK" then "OK" else "Power-only?",
    status := if strContains endpoints "BULK" then passGlyph else warnGlyph }

/- ### Quality probe: `estimate_cable_quality` (lines 192-201) -/

/-- The parsed configuration count: `int(configs) if configs.isdigit()
else 1`, where `configs` is the stripped `grep -c` stdout (lines 195-196). -/
def quality_count (stdout : String) : Nat :=
  let s := pyStrip stdout
  if pyIsDigit s then digitsToNat s.data else 1

/-- `estimate_cable_quality`: value `"{configs} Configs"`, status pass glyph
iff `configs >= 2`, else warn glyph (lines 197-198). -/
def estimate_cable_quality (stdout : String) : ProbeResult :=
  let configs := quality_count stdout
  { value := toString configs ++ " Configs",
    status := if 2 ≤ configs then passGlyph else warnGlyph }

/- ### MTP device discovery: `find_mtp_device` (lines 135-143) -/

/-- Python list indexing `l[i]`: `IndexError` (modelled as `.error ()`)
when `i` is out of range. -/
def pyGet (l : List α) (i : Nat) : Except Unit α :=
  match l.get? i with
  | some x => .ok x
  | none => .error ()

/-- The suffix of `hay` after the first occurrence of `sep`, `none` when
`sep` does not occur (helper for Python `hay.split(sep)[1]`). -/
def afterFirst (sep : List Char) : List Char → Option (List Char)
  | [] => if sep.isPrefixOf [] then some [] else none
  | c :: rest =>
      if sep.isPrefixOf (c :: rest) then some ((c :: rest).drop sep.length)
      else afterFirst sep rest

/-- The prefix of `hay` before the first occurrence of `sep` (the whole of
`hay` when `sep` does not occur): Python `hay.split(sep)[0]`. -/
def takeUntilSub (sep : List Char) : List Char → List Char
  | [] => []
  | c :: rest =>
      if sep.isPrefixOf (c :: rest) then [] else c :: takeUntilSub sep rest

/-- Python `s.split(sep)[1]` for a nonempty `sep`: the segment strictly
between the first occurrence of `sep` and the following occurrence (or the
end); `IndexError` when `sep` does not occur in `s`. -/
def pySplitSecond (sep : List Char) (s : List Char) : Except Unit (List Char) :=
  match afterFirst sep s with
  | some rest => .ok (takeUntilSub sep rest)
  | none => .error ()

/-- Python `s.split()[0]`: the first whitespace-delimited token, or
`IndexError` when `s` is empty or all whitespace. -/
def firstToken (s : List Char) : Except Unit (List Char) :=
  match s.dropWhile Char.isWhitespace with
  | [] => .error ()
  | c :: rest => .ok (c :: rest.takeWhile fun ch => !ch.isWhitespace)

/-- Python `s.rstrip('/')`. -/
def rstripSlash (s : List Char) : List Char :=
  ((s.reverse.dropWhile fun c => c = '/')).reverse

/-- The apostrophe character, separator of `split("'")` on line 141. -/
def quoteChar : Char := Char.ofNat 39

/-- `find_mtp_device`, as a function of the `gio mount -l | grep 'mtp://'`
stdout: returns the no-device sentinel `none` when the output is falsy
(empty), otherwise evaluates
`out.split("mtp://")[1].split("'")[0].split()[0].rstrip('/')`,
which raises `IndexError` (modelled `.error ()`) when an indexed list is
too short. -/
def find_mtp_device (gioMounts : String) : Except Unit (Option String) := do
  if gioMounts = "" then return none
  let seg ← pySplitSecond "mtp://".data gioMounts.data
  let beforeQuote := takeUntilSub [quoteChar] seg
  let tok ← firstToken beforeQuote
  return some (String.mk (rstripSlash tok))

/- ### Speed probe: `transfer_speed_test` (lines 145-190) -/

/-- The per-cycle external inputs of one iteration of the transfer loop
(lines 153-183): the generated random bytes, the upload command's exit
code, the downloaded copy's bytes when `test_file.check` exists after the
`gio copy` back (`none` when it does not), and the elapsed wall-clock time
`time.time() - start` at the integrity check. -/
structure CycleInput where
  data : List Nat
  uploadExit : Int
  downloaded : Option (List Nat)
  elapsed : ℚ

/-- Observable outcome of one cycle: whether `success` was incremented,
the speed appended to `speeds` (when any), and whether the
`gio remove` of the remote copy was issued. -/
structure CycleOutcome where
  success : Bool
  speed : Option ℚ
  remoteRemoveIssued : Bool
deriving Repr, DecidableEq

/-- `TEST_FILE_SIZE / elapsed / 1024 / 1024 * 8` (line 171): bytes per
second converted to megabits per second. -/
def speed_of (elapsed : ℚ) : ℚ :=
  (TEST_FILE_SIZE : ℚ) / elapsed / 1024 / 1024 * 8

/-- One iteration of the transfer loop (lines 153-183), parametric in the
hash function `h` (the source uses SHA-256 hexdigests; only equality of
hash values is ever inspected): the cycle succeeds iff the upload exited 0,
the downloaded copy exists, and its hash equals the original's hash; the
`gio remove` of the remote copy is issued whenever the upload exited 0,
regardless of the download and integrity outcomes. -/
def run_cycle (h : List Nat → Nat) (c : CycleInput) : CycleOutcome :=
  if c.uploadExit = 0 then
    match c.downloaded with
    | some d =>
        if h c.data = h d then
          { success := true, speed := some (speed_of c.elapsed),
            remoteRemoveIssued := true }
        else { success := false, speed := none, remoteRemoveIssued := true }
    | none => { success := false, speed := none, remoteRemoveIssued := true }
  else { success := false, speed := none, remoteRemoveIssued := false }

/-- The local files present just before the per-cycle cleanup (lines
176-179), given the files `fs0` present before the cycle: the upload source
`test_file` is always written; `test_file.check` exists when the upload
succeeded and the download produced it. -/
def cycle_files_before_cleanup (c : CycleInput) (testFile : String)
    (fs0 : List String) : List String :=
  (fs0 ++ [testFile]) ++
    (if c.uploadExit = 0 ∧ c.downloaded.isSome then [testFile ++ ".check"]
     else [])

/-- `os.unlink(f)` guarded by `os.path.exists(f)` (lines 177-179), on a
filesystem modelled as the list of existing paths. -/
def removeIfExists (fs : List String) (f : String) : List String :=
  if f ∈ fs then fs.filter fun g => g ≠ f else fs

/-- The cleanup loop `for f in [test_file, f"{test_file}.check"]` applied
at the end of every cycle. -/
def cycle_cleanup (fs : List String) (testFile : String) : List String :=
  removeIfExists (removeIfExists fs testFile) (testFile ++ ".check")

/-- The local filesystem after one complete cycle. -/
def cycle_files_after (c : CycleInput) (testFile : String)
    (fs0 : List String) : List String :=
  cycle_cleanup (cycle_files_before_cleanup c testFile fs0) testFile

/-- The `speeds` list accumulated over the cycles: one entry per
successful cycle (lines 172-173). -/
def cycle_speeds (h : List Nat → Nat) (cs : List CycleInput) : List ℚ :=
  cs.filterMap fun c => (run_cycle h c).speed

/-- The `success` counter accumulated over the cycles (line 173). -/
def success_count (h : List Nat → Nat) (cs : List CycleInput) : Nat :=
  cs.countP fun c => (run_cycle h c).success

/-- `avg_speed = sum(speeds)/len(speeds) if speeds else 0` (line 185). -/
def avg_speed (speeds : List ℚ) : ℚ :=
  if speeds = [] then 0 else speeds.sum / speeds.length

/-- The tier chain of line 186: three stars above 400 Mbps, two above 200,
one above 50, else the warn glyph. -/
def speed_rating (avg : ℚ) : String :=
  if avg > 400 then star3
  else if avg > 200 then star2
  else if avg > 50 then star1
  else warnGlyph

/-- Rounding used by Python's `f"{x:.0f}"`: nearest integer, ties to the
even neighbour. Computed on the rational's numerator and denominator:
`f = ⌊q⌋` and the fractional part `r = q - f` satisfies
`r = (num - f*den)/den`, so `r` is compared with `1/2` by comparing
`2*(num - f*den)` with `den`. -/
def roundHalfEven (q : ℚ) : ℤ :=
  let f := q.num.fdiv q.den
  let rnum := q.num - f * q.den
  if 2 * rnum < (q.den : ℤ) then f
  else if (q.den : ℤ) < 2 * rnum then f + 1
  else if f % 2 = 0 then f else f + 1

/-- `speed_str = f"{avg_speed:.0f}Mbps ({success}/5)"` (line 187). -/
def speed_str (avg : ℚ) (success : Nat) : String :=
  toString (roundHalfEven avg) ++ "Mbps (" ++ toString success ++ "/5)"

/-- `transfer_speed_test`, as a function of the per-cycle inputs: the
record entry written under the `speed` key (lines 185-188). -/
def transfer_speed_test (h : List Nat → Nat) (cs : List CycleInput) :
    ProbeResult :=
  let avg := avg_speed (cycle_speeds h cs)
  { value := speed_str avg (success_count h cs),
    status := speed_rating avg }

/- ### Renderer status tables: `_format_status` (203-220),
`_get_status_width` (226-233) -/

/-- The `colorama.Fore` color code strings (empty strings when colorama is
absent, ANSI escapes when present). -/
structure ForeColors where
  GREEN : String
  RED : String
  YELLOW : String
  CYAN : String
  RESET : String

/-- `_format_status` (lines 203-220): wraps each known status glyph in a
color, returning unknown statuses unchanged through the final `else`. -/
def format_status (fore : ForeColors) (status : String) : String :=
  if status = star3 then fore.YELLOW ++ star3 ++ fore.RESET
  else if status = star2 then fore.YELLOW ++ star2 ++ fore.RESET
  else if status = star1 then fore.YELLOW ++ star1 ++ fore.RESET
  else if status = passGlyph then fore.GREEN ++ passGlyph ++ fore.RESET
  else if status = warnGlyph then fore.YELLOW ++ warnGlyph ++ fore.RESET
  else if status = failGlyph then fore.RED ++ failGlyph ++ fore.RESET
  else if status = unknownGlyph then fore.YELLOW ++ unknownGlyph ++ fore.RESET
  else status

/-- Whether `_format_status` falls through to its final `else` branch on
this status. -/
def format_status_fallback (status : String) : Bool :=
  !(status = star3 || status = star2 || status = star1 || status = passGlyph
    || status = warnGlyph || status = failGlyph || status = unknownGlyph)

/-- The `widths` lookup dict of `_get_status_width` (lines 228-231). -/
def status_width_table (clean : String) : Option Nat :=
  if clean = passGlyph then some 2
  else if clean = warnGlyph then some 1
  else if clean = failGlyph then some 2
  else if clean = unknownGlyph then some 2
  else if clean = star1 then some 8
  else if clean = star2 then some 10
  else if clean = star3 then some 12
  else none

/-- `_get_status_width` after ANSI stripping: table lookup with the
`len(clean)` fallback of `widths.get(clean, len(clean))`. -/
def get_status_width (clean : String) : Nat :=
  (status_width_table clean).getD clean.length

/- ### Aggregator: `print_perfect_table` (lines 235-303) -/

/-- The completed `test_results` record read by the renderer: one
`ProbeResult` under each of the six fixed metric keys. -/
structure TestRecord where
  usb_version : ProbeResult
  power : ProbeResult
  speed : ProbeResult
  stability : ProbeResult
  pinout : ProbeResult
  quality : ProbeResult
deriving Repr, DecidableEq

/-- The six statuses in the row order of the `tests` list (lines 249-256). -/
def recordStatuses (r : TestRecord) : List String :=
  [r.usb_version.status, r.power.status, r.speed.status,
   r.stability.status, r.pinout.status, r.quality.status]

/-- The passing status set of line 272:
`["✅", "⭐ (1/3)", "⭐⭐ (2/3)", "⭐⭐⭐ (3/3)"]`. -/
def passingSet : List String := [passGlyph, star1, star2, star3]

/-- `passed_count`: the number of the six rows whose status is in the
passing set (lines 263-273). -/
def passed_count (r : TestRecord) : Nat :=
  (recordStatuses r).countP fun s => passingSet.contains s

/-- `percentage = (passed_count / 6) * 100` (line 278), as an exact
rational. -/
def percentage (r : TestRecord) : ℚ :=
  (passed_count r : ℚ) / 6 * 100

/-- The three certification outcomes printed at lines 281-287. -/
inductive Certification where
  | top
  | mid
  | bottom
deriving Repr, DecidableEq

/-- Tier selection (lines 281-286): `>= 85` percent is the top tier
("USB-IF PREMIUM CERTIFIED"), else `>= 67` the mid tier ("USB CERTIFIED"),
else the bottom tier ("POWER-ONLY CABLE DETECTED"). -/
def certification (r : TestRecord) : Certification :=
  if percentage r ≥ 85 then .top
  else if percentage r ≥ 67 then .mid
  else .bottom

/- ### The full run: `run_complete_test` (lines 305-330) -/

/-- All external inputs consumed by one full run. -/
structure RunInputs where
  verMatch : Option String
  powerReads : List (Option String)
  stabilityBase : String
  stabilitySnaps : List String
  endpoints : String
  configsOut : String
  gioMounts : String
  cycles : List CycleInput
  hash : List Nat → Nat

/-- The six fixed metric keys, in the order `run_complete_test` writes
them (lines 311-315 then 325/327). -/
def writeOrder : List String :=
  ["usb_version", "power", "stability", "pinout", "quality", "speed"]

/-- The trace of `test_results[...] = ...` assignments performed by a run
of `run_complete_test`, one `(key, result)` pair per assignment statement
executed. The run aborts (propagating `IndexError`, `.error ()`) exactly
when `find_mtp_device` raises; otherwise the `speed` key receives either
the transfer test's result or the sentinel
`{"value": "No MTP", "status": "❓"}` (line 327). -/
def run_complete_test (inp : RunInputs) :
    Except Unit (List (String × ProbeResult)) := do
  let w1 : List (String × ProbeResult) :=
    match inp.verMatch with
    | some ver => [("usb_version", detect_usb_version (some ver))]
    | none => [("usb_version", detect_usb_version none)]
  let w2 := [("power", detect_power_sysfs inp.powerReads)]
  let w3 := [("stability", usb_stability_test inp.stabilityBase inp.stabilitySnaps)]
  let w4 := [("pinout", check_pinout_data inp.endpoints)]
  let w5 := [("quality", estimate_cable_quality inp.configsOut)]
  let dev ← find_mtp_device inp.gioMounts
  let w6 : List (String × ProbeResult) :=
    match dev with
    | some _ => [("speed", transfer_speed_test inp.hash inp.cycles)]
    | none => [("speed", { value := "No MTP", status := unknownGlyph })]
  return w1 ++ w2 ++ w3 ++ w4 ++ w5 ++ w6

/-- The record assembled from a completed run's writes (last write wins,
as for a Python dict; every key is in fact written exactly once). -/
def lastWrite (ws : List (String × ProbeResult)) (key : String) :
    Option ProbeResult :=
  (ws.reverse.find? fun kv => kv.1 = key).map Prod.snd

/-- The seven status glyphs that the renderer's tables cover. -/
def statusSet : List String :=
  [passGlyph, failGlyph, warnGlyph, unknownGlyph, star1, star2, star3]

/-! ## Theorems -/

/-- C5: for every command, timeout bound and underlying outcome, the
command runner returns a `{stdout, stderr, exitCode}` result and never
raises: on completion (any exit code, zero or not) it returns the captured
result unchanged, and on timeout it returns the synthetic failure result
with empty stdout, stderr `"Timeout"` and exit code 1. -/
theorem claim_C5_runCmd_total (cmd : String) (t : Nat) :
    (∀ out err rc, runCmd cmd t (.completed out err rc) =
      { args := cmd, returncode := rc, stdout := out, stderr := err }) ∧
    runCmd cmd t .timedOut =
      { args := cmd, returncode := 1, stdout := "", stderr := "Timeout" } :=
  ⟨fun _ _ _ => rfl, rfl⟩

/-- C1: the aggregator counts `passed_count` as the number of the six
row statuses lying in the passing set (the pass glyph and the three star
tiers; warn, fail and unknown are non-passing), computes
`percentage = passed_count/6 * 100`, and selects the tier by
`>= 85` → top, `>= 67` → mid, else bottom; in particular 6 passing rows
give the top tier, 5 the mid tier, and 3 the bottom tier. -/
theorem claim_C1_aggregation (r : TestRecord) :
    passed_count r =
      ((recordStatuses r).filter fun s => passingSet.contains s).length ∧
    percentage r = (passed_count r : ℚ) / 6 * 100 ∧
    (warnGlyph ∉ passingSet ∧ failGlyph ∉ passingSet ∧
      unknownGlyph ∉ passingSet) ∧
    (passed_count r = 6 → certification r = .top) ∧
    (passed_count r = 5 → certification r = .mid) ∧
    (passed_count r = 3 → certification r = .bottom) := by
  refine ⟨?_, rfl, by decide, ?_, ?_, ?_⟩
  · simp [passed_count, List.countP_eq_length_filter]
  · intro h
    simp only [certification, percentage, h]
    norm_num
  · intro h
    simp only [certification, percentage, h]
    norm_num
  · intro h
    simp only [certification, percentage, h]
    norm_num

/-- Witness for C1 at three concrete records: six passing statuses give
the top tier, five the mid tier, three the bottom tier. -/
theorem claim_C1_aggregation_witness :
    (passed_count ⟨⟨"a", passGlyph⟩, ⟨"b", star1⟩, ⟨"c", star2⟩,
        ⟨"d", star3⟩, ⟨"e", passGlyph⟩, ⟨"f", passGlyph⟩⟩ = 6 ∧
      certification ⟨⟨"a", passGlyph⟩, ⟨"b", star1⟩, ⟨"c", star2⟩,
        ⟨"d", star3⟩, ⟨"e", passGlyph⟩, ⟨"f", passGlyph⟩⟩ = .top) ∧
    (passed_count ⟨⟨"a", passGlyph⟩, ⟨"b", star1⟩, ⟨"c", star2⟩,
        ⟨"d", star3⟩, ⟨"e", passGlyph⟩, ⟨"f", unknownGlyph⟩⟩ = 5 ∧
      certification ⟨⟨"a", passGlyph⟩, ⟨"b", star1⟩, ⟨"c", star2⟩,
        ⟨"d", star3⟩, ⟨"e", passGlyph⟩, ⟨"f", unknownGlyph⟩⟩ = .mid) ∧
    (passed_count ⟨⟨"a", passGlyph⟩, ⟨"b", star1⟩, ⟨"c", star2⟩,
        ⟨"d", warnGlyph⟩, ⟨"e", failGlyph⟩, ⟨"f", unknownGlyph⟩⟩ = 3 ∧
      certification ⟨⟨"a", passGlyph⟩, ⟨"b", star1⟩, ⟨"c", star2⟩,
        ⟨"d", warnGlyph⟩, ⟨"e", failGlyph⟩, ⟨"f", unknownGlyph⟩⟩ = .bottom) := by
  refine ⟨⟨by decide, ?_⟩, ⟨by decide, ?_⟩, ⟨by decide, ?_⟩⟩
  · exact (claim_C1_aggregation _).2.2.2.1 (by decide)
  · exact (claim_C1_aggregation _).2.2.2.2.1 (by decide)
  · exact (claim_C1_aggregation _).2.2.2.2.2 (by decide)

/-- C3 counterexample: the matched token `"4.00"` falls through every
version branch and gets the warn status, but its reported value is
`"USB 4.00"`, not the raw token `"4.00"`; moreover the matched token
`"13.15"` is none of the claim's listed tokens, yet it is classified as
`"USB 3.2 Gen 2"` with a star tier, not with the warn status. -/
theorem claim_C3_counterexample :
    ((detect_usb_version (some "4.00")).status = warnGlyph ∧
      (detect_usb_version (some "4.00")).value ≠ "4.00") ∧
    detect_usb_version (some "13.15") =
      { value := "USB 3.2 Gen 2", status := star2 } := by
  decide

/-- C3 (amended): classification is a pure function of the matched token,
decided by the source's substring chain: a token starting with `"2."`
(e.g. `"2.01"`) gives `"USB 2.0"`/tier-1; `"3.20"` gives
`"USB 3.2 Gen 2x2"`/tier-3; `"3.10"` gives `"USB 3.2 Gen 2"`/tier-2;
`"3.0"` gives `"USB 3.2 Gen 1"`/tier-2; a matched token reaching none of
those branches gives `"USB "` followed by the raw token, with the warn
status; and no match gives `"Unknown"` with the unknown glyph. -/
theorem claim_C3_version_classification :
    (∀ ver, strStartsWith ver "2." = true →
      detect_usb_version (some ver) = { value := "USB 2.0", status := star1 }) ∧
    detect_usb_version (some "2.01") = { value := "USB 2.0", status := star1 } ∧
    detect_usb_version (some "3.20") =
      { value := "USB 3.2 Gen 2x2", status := star3 } ∧
    detect_usb_version (some "3.10") =
      { value := "USB 3.2 Gen 2", status := star2 } ∧
    detect_usb_version (some "3.0") =
      { value := "USB 3.2 Gen 1", status := star2 } ∧
    (∀ ver, strStartsWith ver "2." = false →
      strContains ver "3.2" = false → strContains ver "3.20" = false →
      strContains ver "3.1" = false → strContains ver "3.10" = false →
      strContains ver "3.0" = false →
      detect_usb_version (some ver) =
        { value := "USB " ++ ver, status := warnGlyph }) ∧
    detect_usb_version none = { value := "Unknown", status := unknownGlyph } := by
  refine ⟨?_, by decide, by decide, by decide, by decide, ?_, rfl⟩
  · intro ver h
    simp [detect_usb_version, classify_version, h]
  · intro ver h1 h2 h3 h4 h5 h6
    simp [detect_usb_version, classify_version, h1, h2, h3, h4, h5, h6]

/-- Witness for C3 (amended) at the tokens `"2.01"` (prefix branch) and
`"4.00"` (fall-through branch). -/
theorem claim_C3_version_classification_witness :
    detect_usb_version (some "2.01") = { value := "USB 2.0", status := star1 } ∧
    detect_usb_version (some "4.00") =
      { value := "USB 4.00", status := warnGlyph } :=
  ⟨claim_C3_version_classification.1 "2.01" (by decide),
   claim_C3_version_classification.2.2.2.2.2.1 "4.00" (by decide) (by decide)
     (by decide) (by decide) (by decide) (by decide)⟩

/-- C6: the quality probe is a pure function of the counted configuration
marker string: `"1"` gives `"1 Configs"` with the warn status, `"2"` gives
`"2 Configs"` with the pass status, the status is the pass glyph iff the
parsed count is at least 2, and a string that is not a nonempty run of
decimal digits defaults the count to 1 (not 0), producing a result rather
than an error. -/
theorem claim_C6_quality (s : String) :
    estimate_cable_quality "1" = { value := "1 Configs", status := warnGlyph } ∧
    estimate_cable_quality "2" = { value := "2 Configs", status := passGlyph } ∧
    ((estimate_cable_quality s).status = passGlyph ↔ 2 ≤ quality_count s) ∧
    (pyIsDigit (pyStrip s) = false →
      quality_count s = 1 ∧
        estimate_cable_quality s =
          { value := "1 Configs", status := warnGlyph }) := by
  have hdef : estimate_cable_quality s =
      { value := toString (quality_count s) ++ " Configs",
        status := if 2 ≤ quality_count s then passGlyph else warnGlyph } := rfl
  refine ⟨by decide, by decide, ?_, ?_⟩
  · rw [hdef]
    by_cases h2 : 2 ≤ quality_count s
    · simp [h2]
    · simp only [h2, if_neg h2, iff_false]
      decide
  · intro h
    have hq : quality_count s = 1 := by simp [quality_count, h]
    refine ⟨hq, ?_⟩
    rw [hdef, hq]
    decide

/-- Witness for C6 at the non-numeric count string `"abc"`. -/
theorem claim_C6_quality_witness :
    quality_count "abc" = 1 ∧
      estimate_cable_quality "abc" =
        { value := "1 Configs", status := warnGlyph } :=
  (claim_C6_quality "abc").2.2.2 (by decide)

/-- C4: with the upload having exited 0 (so that a download was
attempted), the cycle is counted successful — `success` incremented and
its speed appended — iff the downloaded copy exists and its hash equals
the original's hash exactly; and on a hash mismatch the cycle's outcome is
identical to the outcome when the downloaded copy is missing entirely
(a complete transfer failure), with no separate diagnostic. -/
theorem claim_C4_integrity (h : List Nat → Nat) (c : CycleInput)
    (hup : c.uploadExit = 0) :
    ((run_cycle h c).success = true ↔
      ∃ d, c.downloaded = some d ∧ h c.data = h d) ∧
    ((run_cycle h c).success = true ↔
      (run_cycle h c).speed = some (speed_of c.elapsed)) ∧
    (∀ d, c.downloaded = some d → h c.data ≠ h d →
      run_cycle h c = run_cycle h { c with downloaded := none }) := by
  refine ⟨?_, ?_, ?_⟩
  · unfold run_cycle
    rw [if_pos hup]
    cases hd : c.downloaded with
    | none => simp
    | some d =>
        by_cases hh : h c.data = h d
        · simp [hh]
        · simp [hh]
  · unfold run_cycle
    rw [if_pos hup]
    cases hd : c.downloaded with
    | none => simp
    | some d =>
        by_cases hh : h c.data = h d
        · simp [hh]
        · simp [hh]
  · intro d hd hh
    unfold run_cycle
    simp only [hd, hup, if_pos rfl, if_neg hh]

/-- Witness for C4: a cycle whose downloaded copy hashes to the original's
hash succeeds, and a cycle whose downloaded copy differs (here in one
entry) has the same outcome as one whose download produced nothing. -/
theorem claim_C4_integrity_witness :
    (run_cycle (fun l => l.sum) ⟨[1, 2, 3], 0, some [1, 2, 3], 1⟩).success
        = true ∧
    run_cycle (fun l => l.sum) ⟨[1, 2, 3], 0, some [1, 2, 9], 1⟩ =
      run_cycle (fun l => l.sum) ⟨[1, 2, 3], 0, none, 1⟩ :=
  ⟨(claim_C4_integrity (fun l => l.sum) ⟨[1, 2, 3], 0, some [1, 2, 3], 1⟩
      rfl).1.mpr ⟨[1, 2, 3], rfl, rfl⟩,
   (claim_C4_integrity (fun l => l.sum) ⟨[1, 2, 3], 0, some [1, 2, 9], 1⟩
      rfl).2.2 [1, 2, 9] rfl (by decide)⟩

/-- Per cycle, a speed is appended to `speeds` iff `success` is
incremented (lines 171-173 execute together). -/
theorem run_cycle_speed_success (h : List Nat → Nat) (c : CycleInput) :
    ((run_cycle h c).speed).isSome = (run_cycle h c).success := by
  by_cases hup : c.uploadExit = 0
  · cases hd : c.downloaded with
    | none => simp [run_cycle, hup, hd]
    | some d =>
        by_cases hh : h c.data = h d <;> simp [run_cycle, hup, hd, hh]
  · simp [run_cycle, hup]

/-- C7: the speed probe's aggregate is computed over successful cycles
only: exactly the successful cycles contribute a speed, the average is
their mean and 0 when no cycle succeeded; the status is tier-3 above
400 Mbps, tier-2 above 200, tier-1 above 50, else the warn status; and
the reported value string is the rounded average followed by `"Mbps"` and
the success count out of the 5 (`TEST_CYCLES`) total cycles. -/
theorem claim_C7_speed_aggregate (h : List Nat → Nat) (cs : List CycleInput) :
    TEST_CYCLES = 5 ∧
    (∀ c, ((run_cycle h c).speed).isSome = (run_cycle h c).success) ∧
    (cycle_speeds h cs).length = success_count h cs ∧
    (success_count h cs = 0 → avg_speed (cycle_speeds h cs) = 0) ∧
    (0 < success_count h cs →
      avg_speed (cycle_speeds h cs) =
        (cycle_speeds h cs).sum / ((cycle_speeds h cs).length : ℚ)) ∧
    transfer_speed_test h cs =
      { value := speed_str (avg_speed (cycle_speeds h cs)) (success_count h cs),
        status := speed_rating (avg_speed (cycle_speeds h cs)) } ∧
    (∀ avg : ℚ,
      (400 < avg → speed_rating avg = star3) ∧
      (avg ≤ 400 → 200 < avg → speed_rating avg = star2) ∧
      (avg ≤ 200 → 50 < avg → speed_rating avg = star1) ∧
      (avg ≤ 50 → speed_rating avg = warnGlyph)) ∧
    (∀ avg success, speed_str avg success =
      toString (roundHalfEven avg) ++ "Mbps (" ++ toString success ++ "/5)") := by
  have hlen : (cycle_speeds h cs).length = success_count h cs := by
    induction cs with
    | nil => rfl
    | cons c cs ih =>
        have hc := run_cycle_speed_success h c
        simp only [cycle_speeds, success_count, List.filterMap_cons,
          List.countP_cons] at ih ⊢
        cases hs : (run_cycle h c).success with
        | false =>
            rw [hs] at hc
            have hn : (run_cycle h c).speed = none :=
              Option.not_isSome_iff_eq_none.mp (by simp [hc])
            rw [hn]
            simpa [hs] using ih
        | true =>
            rw [hs] at hc
            obtain ⟨q, hq⟩ := Option.isSome_iff_exists.mp hc
            rw [hq]
            simpa [hs] using ih
  refine ⟨rfl, run_cycle_speed_success h, hlen, ?_, ?_, rfl, ?_, fun _ _ => rfl⟩
  · intro h0
    have : cycle_speeds h cs = [] :=
      List.length_eq_zero.mp (by rw [hlen, h0])
    simp [avg_speed, this]
  · intro hpos
    have : cycle_speeds h cs ≠ [] := by
      intro hnil
      rw [hnil] at hlen
      simp at hlen
      omega
    simp [avg_speed, this]
  · intro avg
    refine ⟨?_, ?_, ?_, ?_⟩ <;> intros <;> unfold speed_rating <;>
      split_ifs <;> first | rfl | linarith

/-- Witness for C7 at an empty cycle list: no cycle succeeded, so the
average is 0 and the status is the warn glyph. -/
theorem claim_C7_speed_aggregate_witness :
    avg_speed (cycle_speeds (fun l => l.sum) []) = 0 ∧
    speed_rating 0 = warnGlyph :=
  ⟨(claim_C7_speed_aggregate (fun l => l.sum) []).2.2.2.1 (by decide),
   ((claim_C7_speed_aggregate (fun l => l.sum) []).2.2.2.2.2.2.1 0).2.2.2
     (by decide)⟩

/-- The guarded unlink removes the named path. -/
theorem not_mem_removeIfExists_self (fs : List String) (f : String) :
    f ∉ removeIfExists fs f := by
  unfold removeIfExists
  split
  · simp [List.mem_filter]
  · assumption

/-- The guarded unlink keeps every other path. -/
theorem mem_removeIfExists_of_ne {fs : List String} {x g : String}
    (hx : x ∈ fs) (hne : x ≠ g) : x ∈ removeIfExists fs g := by
  unfold removeIfExists
  split
  · simp [List.mem_filter, hx, hne]
  · exact hx

/-- The guarded unlink creates no path. -/
theorem mem_of_mem_removeIfExists {fs : List String} {x g : String}
    (hx : x ∈ removeIfExists fs g) : x ∈ fs := by
  unfold removeIfExists at hx
  split at hx
  · exact (List.mem_filter.mp hx).1
  · exact hx

/-- C8: on every exit path of a speed-probe cycle (success, upload
failure, download failure, hash mismatch), both local temp files — the
upload source and the downloaded copy — are absent after the per-cycle
cleanup, every unrelated pre-existing file survives it, and the
`gio remove` of the remote copy is issued whenever the upload created one
(exit code 0), regardless of the cycle's success. -/
theorem claim_C8_cleanup (h : List Nat → Nat) (c : CycleInput)
    (testFile : String) (fs0 : List String) :
    testFile ∉ cycle_files_after c testFile fs0 ∧
    testFile ++ ".check" ∉ cycle_files_after c testFile fs0 ∧
    (∀ f ∈ fs0, f ≠ testFile → f ≠ testFile ++ ".check" →
      f ∈ cycle_files_after c testFile fs0) ∧
    (c.uploadExit = 0 → (run_cycle h c).remoteRemoveIssued = true) := by
  refine ⟨?_, ?_, ?_, ?_⟩
  · intro hmem
    exact not_mem_removeIfExists_self _ _ (mem_of_mem_removeIfExists hmem)
  · exact not_mem_removeIfExists_self _ _
  · intro f hf hne1 hne2
    exact mem_removeIfExists_of_ne
      (mem_removeIfExists_of_ne (by simp [cycle_files_before_cleanup, hf]) hne1)
      hne2
  · intro hup
    cases hd : c.downloaded with
    | none => simp [run_cycle, hup, hd]
    | some d =>
        by_cases hh : h c.data = h d <;> simp [run_cycle, hup, hd, hh]

/-- Witness for C8 at a concrete failed-download cycle: an unrelated
pre-existing file survives the cleanup and the remote removal is issued. -/
theorem claim_C8_cleanup_witness :
    "keep.txt" ∈ cycle_files_after ⟨[7], 0, none, 1⟩ "/tmp/t.bin" ["keep.txt"] ∧
    (run_cycle (fun l => l.sum) ⟨[7], 0, none, 1⟩).remoteRemoveIssued = true :=
  ⟨(claim_C8_cleanup (fun l => l.sum) ⟨[7], 0, none, 1⟩ "/tmp/t.bin"
      ["keep.txt"]).2.2.1 "keep.txt" (by decide) (by decide) (by decide),
   (claim_C8_cleanup (fun l => l.sum) ⟨[7], 0, none, 1⟩ "/tmp/t.bin"
      ["keep.txt"]).2.2.2 rfl⟩

/-- C9 counterexample: the mount-list output `"mtp://\n"` — a line the
`grep 'mtp://'` filter can produce — is nonempty, yet discovery raises
(`IndexError` on `split()[0]`, modelled `.error ()`) instead of returning
an extracted device-path segment. -/
theorem claim_C9_counterexample :
    "mtp://\n" ≠ "" ∧ find_mtp_device "mtp://\n" = .error () :=
  ⟨by decide, rfl⟩

/-- C9 (amended): the MTP discovery step returns the no-device sentinel
`none` exactly when the mount-list output is empty; on any nonempty output
it either returns an extracted device-path segment or raises an
`IndexError` (when no `"mtp://"` occurs, or no non-whitespace token
follows it before an apostrophe) — so discovery can abort the run on
outputs outside the grep-filtered shape the program expects. -/
theorem claim_C9_discovery :
    find_mtp_device "" = .ok none ∧
    (∀ s, find_mtp_device s = .ok none ↔ s = "") ∧
    (∀ s, s ≠ "" →
      (∃ d, find_mtp_device s = .ok (some d)) ∨
        find_mtp_device s = .error ()) := by
  have key : ∀ s : String, s ≠ "" →
      (∃ d, find_mtp_device s = .ok (some d)) ∨
        find_mtp_device s = .error () := by
    intro s hs
    unfold find_mtp_device
    rw [if_neg hs]
    cases h1 : pySplitSecond "mtp://".data s.data with
    | error e =>
        right
        cases e
        simp [h1, Bind.bind, Except.bind, Pure.pure, Except.pure]
    | ok seg =>
        cases h2 : firstToken (takeUntilSub [quoteChar] seg) with
        | error e =>
            right
            cases e
            simp [h1, h2, Bind.bind, Except.bind, Pure.pure, Except.pure]
        | ok tok =>
            left
            refine ⟨String.mk (rstripSlash tok), ?_⟩
            simp [h1, h2, Bind.bind, Except.bind, Pure.pure, Except.pure]
  refine ⟨rfl, ?_, key⟩
  intro s
  constructor
  · intro hnone
    by_contra hs
    rcases key s hs with ⟨d, hd⟩ | herr
    · rw [hd] at hnone
      simp at hnone
    · rw [herr] at hnone
      simp at hnone
  · intro hs
    subst hs
    rfl

/-- Witness for C9 (amended) at a realistic nonempty mount-list line:
discovery extracts a device path or errors (here it extracts). -/
theorem claim_C9_discovery_witness :
    (∃ d, find_mtp_device
        "Mount(0): Galaxy on mtp://SAMSUNG_123/ -> mtp://host\n" =
      .ok (some d)) ∨
    find_mtp_device "Mount(0): Galaxy on mtp://SAMSUNG_123/ -> mtp://host\n" =
      .error () :=
  claim_C9_discovery.2.2 "Mount(0): Galaxy on mtp://SAMSUNG_123/ -> mtp://host\n"
    (by decide)

/-- Every status the version probe can store is one of the seven glyphs. -/
theorem detect_usb_version_status_mem (v : Option String) :
    (detect_usb_version v).status ∈ statusSet := by
  cases v with
  | none => decide
  | some ver =>
      show (classify_version ver).2 ∈ statusSet
      unfold classify_version
      split_ifs <;> first
        | decide
        | exact (by decide : warnGlyph ∈ statusSet)

/-- Every status the power probe can store is one of the seven glyphs. -/
theorem detect_power_sysfs_status_mem (reads : List (Option String)) :
    (detect_power_sysfs reads).status ∈ statusSet := by
  unfold detect_power_sysfs
  split_ifs <;> decide

/-- Every status the stability probe can store is one of the seven
glyphs. -/
theorem usb_stability_test_status_mem (base : String) (snaps : List String) :
    (usb_stability_test base snaps).status ∈ statusSet := by
  unfold usb_stability_test
  by_cases h : stability_error_count base snaps = 0 <;> simp [h] <;> decide

/-- Every status the pinout probe can store is one of the seven glyphs. -/
theorem check_pinout_data_status_mem (endpoints : String) :
    (check_pinout_data endpoints).status ∈ statusSet := by
  unfold check_pinout_data
  split_ifs <;> decide

/-- Every status the quality probe can store is one of the seven glyphs. -/
theorem estimate_cable_quality_status_mem (s : String) :
    (estimate_cable_quality s).status ∈ statusSet := by
  show (if 2 ≤ quality_count s then passGlyph else warnGlyph) ∈ statusSet
  split_ifs <;> decide

/-- Every status the speed rating chain can produce is one of the seven
glyphs. -/
theorem speed_rating_mem (avg : ℚ) : speed_rating avg ∈ statusSet := by
  unfold speed_rating
  split_ifs <;> decide

/-- Every status the speed probe can store is one of the seven glyphs. -/
theorem transfer_speed_test_status_mem (h : List Nat → Nat)
    (cs : List CycleInput) : (transfer_speed_test h cs).status ∈ statusSet :=
  speed_rating_mem _

/-- The version probe's two assignment sites (one per branch of the regex
match) write the same key with `detect_usb_version` applied to the match. -/
theorem usb_version_write_eq (v : Option String) :
    (match v with
      | some ver => [("usb_version", detect_usb_version (some ver))]
      | none => [("usb_version", detect_usb_version none)]) =
    [("usb_version", detect_usb_version v)] := by
  cases v <;> rfl

/-- C2: a completed run of the full test sequence performs exactly one
`test_results` write under each of the six fixed metric keys —
`usb_version, power, stability, pinout, quality, speed` in that order, no
key missing and none written more than once — and when no MTP device is
discovered the `speed` key is populated with the sentinel
`{"value": "No MTP", "status": "❓"}` rather than omitted. -/
theorem claim_C2_record_complete (inp : RunInputs)
    (ws : List (String × ProbeResult))
    (hws : run_complete_test inp = .ok ws) :
    ws.map Prod.fst = writeOrder ∧
    (∀ k ∈ writeOrder, (ws.map Prod.fst).count k = 1) ∧
    (find_mtp_device inp.gioMounts = .ok none →
      ("speed", { value := "No MTP", status := unknownGlyph }) ∈ ws) := by
  have hmap : ws.map Prod.fst = writeOrder := by
    cases hfind : find_mtp_device inp.gioMounts with
    | error e =>
        rw [run_complete_test] at hws
        simp [hfind, Bind.bind, Except.bind] at hws
    | ok dev =>
        rw [run_complete_test] at hws
        simp only [hfind, Bind.bind, Except.bind, Pure.pure, Except.pure,
          Except.ok.injEq] at hws
        rw [usb_version_write_eq] at hws
        subst hws
        cases dev <;> rfl
  have hsent : find_mtp_device inp.gioMounts = .ok none →
      ("speed", { value := "No MTP", status := unknownGlyph }) ∈ ws := by
    intro hnone
    rw [run_complete_test, hnone] at hws
    simp only [Bind.bind, Except.bind, Pure.pure, Except.pure,
      Except.ok.injEq] at hws
    subst hws
    simp
  refine ⟨hmap, ?_, hsent⟩
  intro k hk
  rw [hmap]
  fin_cases hk <;> decide

/-- Witness for C2 at a concrete run with no MTP device: the writes cover
the six keys in order and the speed key holds the sentinel. -/
theorem claim_C2_record_complete_witness :
    (([("usb_version", ({ value := "Unknown", status := unknownGlyph } : ProbeResult)),
       ("power", { value := "500mA", status := star1 }),
       ("stability", { value := "0 Errors", status := passGlyph }),
       ("pinout", { value := "Power-only?", status := warnGlyph }),
       ("quality", { value := "1 Configs", status := warnGlyph }),
       ("speed", { value := "No MTP", status := unknownGlyph })]).map Prod.fst
      = writeOrder) ∧
    ("speed", ({ value := "No MTP", status := unknownGlyph } : ProbeResult)) ∈
      [("usb_version", ({ value := "Unknown", status := unknownGlyph } : ProbeResult)),
       ("power", { value := "500mA", status := star1 }),
       ("stability", { value := "0 Errors", status := passGlyph }),
       ("pinout", { value := "Power-only?", status := warnGlyph }),
       ("quality", { value := "1 Configs", status := warnGlyph }),
       ("speed", { value := "No MTP", status := unknownGlyph })] :=
  ⟨(claim_C2_record_complete ⟨none, [], "", [], "", "", "", [], fun l => l.sum⟩
      _ rfl).1,
   (claim_C2_record_complete ⟨none, [], "", [], "", "", "", [], fun l => l.sum⟩
      _ rfl).2.2 rfl⟩

/-- C10: every status string a completed run stores into the record — by
any probe or by the unavailable sentinel — is one of the seven fixed glyph
strings, and on that set the renderer's `_format_status` chain never falls
through to its final `else` and the `_get_status_width` lookup never uses
its `len(clean)` fallback. -/
theorem claim_C10_status_invariant (inp : RunInputs)
    (ws : List (String × ProbeResult))
    (hws : run_complete_test inp = .ok ws) :
    (∀ kv ∈ ws, kv.2.status ∈ statusSet) ∧
    (∀ s ∈ statusSet, format_status_fallback s = false) ∧
    (∀ s ∈ statusSet, (status_width_table s).isSome = true) := by
  refine ⟨?_, by decide, by decide⟩
  cases hfind : find_mtp_device inp.gioMounts with
  | error e =>
      rw [run_complete_test] at hws
      simp [hfind, Bind.bind, Except.bind] at hws
  | ok dev =>
      rw [run_complete_test] at hws
      simp only [hfind, Bind.bind, Except.bind, Pure.pure, Except.pure,
        Except.ok.injEq] at hws
      rw [usb_version_write_eq] at hws
      subst hws
      intro kv hkv
      simp only [List.mem_append, List.mem_cons, List.not_mem_nil,
        or_false] at hkv
      rcases hkv with ((((h | h) | h) | h) | h) | h
      · rw [h]
        exact detect_usb_version_status_mem _
      · rw [h]
        exact detect_power_sysfs_status_mem _
      · rw [h]
        exact usb_stability_test_status_mem _ _
      · rw [h]
        exact check_pinout_data_status_mem _
      · rw [h]
        exact estimate_cable_quality_status_mem _
      · cases dev with
        | none =>
            simp only [List.mem_cons, List.not_mem_nil, or_false] at h
            rw [h]
            decide
        | some d =>
            simp only [List.mem_cons, List.not_mem_nil, or_false] at h
            rw [h]
            exact transfer_speed_test_status_mem _ _

/-- Witness for C10 at a concrete completed run: the sentinel's status is
in the seven-glyph set, the pass glyph does not hit the formatting
fallback, and the three-star tier has a width-table entry. -/
theorem claim_C10_status_invariant_witness :
    ({ value := "No MTP", status := unknownGlyph } : ProbeResult).status ∈
      statusSet ∧
    format_status_fallback passGlyph = false ∧
    (status_width_table star3).isSome = true :=
  ⟨(claim_C10_status_invariant ⟨none, [], "", [], "", "", "", [], fun l => l.sum⟩
      _ rfl).1 ("speed", { value := "No MTP", status := unknownGlyph })
      (by decide),
   (claim_C10_status_invariant ⟨none, [], "", [], "", "", "", [], fun l => l.sum⟩
      _ rfl).2.1 passGlyph (by decide),
   (claim_C10_status_invariant ⟨none, [], "", [], "", "", "", [], fun l => l.sum⟩
      _ rfl).2.2 star3 (by decide)⟩

end UsbCableChk
